import Mathlib

/- Shallow embedding of the simulation core of the asteroids game (src/game.rs).

   The source uses 32-bit floating point arithmetic; the embedding uses exact
   rational arithmetic.  A comparison of a Euclidean length against a
   nonnegative threshold, such as the collision checks and the bullet range
   check, is embedded as the equivalent comparison of the squared distance
   against the squared threshold (for 0 <= t, dist < t iff dist^2 < t^2), so
   that every definition stays executable over the rationals.  The calls to
   Vec2 normalize in the source, whose exact value is irrational in general,
   are embedded relationally: the normalized-and-scaled vector is characterized
   as the unique nonnegative multiple of the input with the prescribed squared
   length. -/

namespace Asteroids

/- 2D vector with rational coordinates, standing in for glam Vec2 (f32). -/
structure Vec2 where
  x : ℚ
  y : ℚ
deriving DecidableEq

instance : Add Vec2 :=
  ⟨fun a b => ⟨a.x + b.x, a.y + b.y⟩⟩

instance : Sub Vec2 :=
  ⟨fun a b => ⟨a.x - b.x, a.y - b.y⟩⟩

instance : SMul ℚ Vec2 :=
  ⟨fun c v => ⟨c * v.x, c * v.y⟩⟩

/- Squared Euclidean length of a vector; stands in for length() * length(). -/
def lengthSq (v : Vec2) : ℚ :=
  v.x ^ 2 + v.y ^ 2

/- Squared distance between two points: embeds (p - q).length() squared. -/
def distSq (p q : Vec2) : ℚ :=
  lengthSq (p - q)

/- Embedding of (p - q).length() < t for a nonnegative threshold t. -/
def distLt (p q : Vec2) (t : ℚ) : Prop :=
  distSq p q < t ^ 2

/- Embedding of (p - q).length() > t for a nonnegative threshold t. -/
def distGt (p q : Vec2) (t : ℚ) : Prop :=
  t ^ 2 < distSq p q

instance (p q : Vec2) (t : ℚ) : Decidable (distLt p q t) :=
  inferInstanceAs (Decidable (_ < _))

instance (p q : Vec2) (t : ℚ) : Decidable (distGt p q t) :=
  inferInstanceAs (Decidable (_ < _))

/- Constants from src/game.rs lines 34-46.  STARSHIP_ROTATION_SPEED is
   5 * 2 * pi / 360, an irrational value; the rotation model below keeps the
   angular increment as an explicit parameter instead. -/

def VIEWPORT_WIDTH : ℚ := 1280

def VIEWPORT_HEIGHT : ℚ := 720

def VIEWPORT_MAX_X : ℚ := VIEWPORT_WIDTH / 2

def VIEWPORT_MIN_X : ℚ := -VIEWPORT_MAX_X

def VIEWPORT_MAX_Y : ℚ := VIEWPORT_HEIGHT / 2

def VIEWPORT_MIN_Y : ℚ := -VIEWPORT_MAX_Y

def ASTEROID_VELOCITY : ℚ := 2

def BULLET_VELOCITY : ℚ := 6

def BULLET_DISTANCE : ℚ := VIEWPORT_HEIGHT * 0.8

def STARSHIP_ACCELERATION : ℚ := 0.2

def STARSHIP_DECELERATION : ℚ := 0.01

def STARSHIP_MAX_VELOCITY : ℚ := 10

/- Asteroid size classes (src/game.rs lines 158-173). -/
inductive AsteroidSize where
  | Big
  | Medium
  | Small
deriving DecidableEq

def AsteroidSize.scale : AsteroidSize → ℚ
  | .Big => 100
  | .Medium => 65
  | .Small => 30

/- One axis of the wraparound step of update_position (src/game.rs 298-308):
   first branch sends a coordinate beyond hi + h to lo - h, second branch
   sends a coordinate below lo - h to hi + h, otherwise unchanged. -/
def wrapCoord (lo hi h c : ℚ) : ℚ :=
  if c > hi + h then lo - h
  else if c < lo - h then hi + h
  else c

/- update_position (src/game.rs 293-312): add velocity to position, then wrap
   each axis using half of the entity transform scale. -/
def updatePosition (scale : ℚ) (vel pos : Vec2) : Vec2 :=
  let newPos := pos + vel
  let half_scale := scale / 2
  ⟨wrapCoord VIEWPORT_MIN_X VIEWPORT_MAX_X half_scale newPos.x,
   wrapCoord VIEWPORT_MIN_Y VIEWPORT_MAX_Y half_scale newPos.y⟩

/- Rotation handling in keyboard_events (src/game.rs 323-327): left adds the
   angular increment, otherwise right subtracts it.  The increment (the value
   STARSHIP_ROTATION_SPEED in the source) is passed as a parameter. -/
def keyboardRotation (left right : Bool) (speed angle : ℚ) : ℚ :=
  if left then angle + speed
  else if right then angle - speed
  else angle

/- The velocity clamp in keyboard_events (src/game.rs 332-334): when the
   squared length exceeds the squared cap, the result is the normalized
   vector rescaled to the cap, characterized as the nonnegative multiple of
   the input whose squared length is the squared cap; otherwise unchanged. -/
def thrustClamp (v w : Vec2) : Prop :=
  if STARSHIP_MAX_VELOCITY ^ 2 < lengthSq v then
    ∃ c : ℚ, 0 ≤ c ∧ w = c • v ∧ lengthSq w = STARSHIP_MAX_VELOCITY ^ 2
  else w = v

/- One thrust tick (src/game.rs 329-335): add direction * STARSHIP_ACCELERATION
   to the velocity, where the direction (from Starship direction(), a cosine
   sine pair) is a unit vector, then apply the clamp. -/
def thrustStep (d v w : Vec2) : Prop :=
  lengthSq d = 1 ∧ thrustClamp (v + STARSHIP_ACCELERATION • d) w

/- decelerate_starship (src/game.rs 374-384): multiply the velocity by
   1 - STARSHIP_DECELERATION. -/
def decelerateStarship (v : Vec2) : Vec2 :=
  (1 - STARSHIP_DECELERATION) • v

/- Starship velocities reachable from v0 by any interleaving of thrust ticks
   (with arbitrary unit directions) and deceleration ticks. -/
inductive ShipReaches : Vec2 → Vec2 → Prop where
  | refl (v : Vec2) : ShipReaches v v
  | thrust (v₀ v w d : Vec2) : ShipReaches v₀ v → thrustStep d v w → ShipReaches v₀ w
  | decel (v₀ v : Vec2) : ShipReaches v₀ v → ShipReaches v₀ (decelerateStarship v)

/- detect_starship_asteroid_collision hit test (src/game.rs 395-399):
   distance < starship_size / 4 + asteroid_size / 2, sizes being the
   transform scales. -/
def starshipAsteroidHit (shipScale astScale : ℚ) (shipPos astPos : Vec2) : Prop :=
  distLt shipPos astPos (shipScale / 4 + astScale / 2)

instance (s a : ℚ) (p q : Vec2) : Decidable (starshipAsteroidHit s a p q) :=
  inferInstanceAs (Decidable (distLt _ _ _))

/- detect_bullet_asteroid_collision hit test (src/game.rs 417-421):
   distance < bullet_size / 2 + asteroid_size / 2, sizes being the
   transform scales (5 for a bullet, the size class scale for an asteroid). -/
def bulletAsteroidHit (bulletScale astScale : ℚ) (bulletPos astPos : Vec2) : Prop :=
  distLt bulletPos astPos (bulletScale / 2 + astScale / 2)

instance (s a : ℚ) (p q : Vec2) : Decidable (bulletAsteroidHit s a p q) :=
  inferInstanceAs (Decidable (distLt _ _ _))

/- Definition following the words of claim C2, for comparison with the source:
   a hit when distance < bullet_radius / 2 + asteroid_radius / 2 where each
   radius is half the rendered scale. -/
def claimBulletAsteroidHit (bulletScale astScale : ℚ) (bulletPos astPos : Vec2) : Prop :=
  distLt bulletPos astPos (bulletScale / 2 / 2 + astScale / 2 / 2)

instance (s a : ℚ) (p q : Vec2) : Decidable (claimBulletAsteroidHit s a p q) :=
  inferInstanceAs (Decidable (distLt _ _ _))

/- Entity records for the collision scans.  The id stands for the bevy Entity
   handle; an asteroid carries its size class, and its transform scale is kept
   in sync with the size class scale by sync_asteroid_scale_transform. -/
structure BulletRec where
  id : ℕ
  pos : Vec2
deriving DecidableEq

structure AsteroidRec where
  id : ℕ
  size : AsteroidSize
  pos : Vec2
deriving DecidableEq

/- Commands issued by detect_bullet_asteroid_collision.  A spawned child
   asteroid also receives a velocity get_random_point().normalize() *
   ASTEROID_VELOCITY (src/game.rs 437-440), embedded separately by
   asteroidVelSpec below since it draws on the random source. -/
inductive Effect where
  | despawnBullet (id : ℕ)
  | despawnAsteroid (id : ℕ)
  | spawnAsteroid (size : AsteroidSize) (pos : Vec2)
deriving DecidableEq

/- The size-class transition of the split (src/game.rs 425-429). -/
def splitSize : AsteroidSize → Option AsteroidSize
  | .Big => some .Medium
  | .Medium => some .Small
  | .Small => none

/- The body of the hit branch (src/game.rs 421-451): despawn the bullet and
   the asteroid, then spawn two children of the next size at the asteroid
   position when the split yields one. -/
def hitEffects (b : BulletRec) (a : AsteroidRec) : List Effect :=
  [Effect.despawnBullet b.id, Effect.despawnAsteroid a.id] ++
    (match splitSize a.size with
     | some s => [Effect.spawnAsteroid s a.pos, Effect.spawnAsteroid s a.pos]
     | none => [])

/- The inner loop of detect_bullet_asteroid_collision for one bullet
   (src/game.rs 413-453): every asteroid of the query is tested; there is no
   break and no exclusion of already-hit bullets. -/
def processBullet (b : BulletRec) (asteroids : List AsteroidRec) : List Effect :=
  asteroids.flatMap fun a =>
    if bulletAsteroidHit 5 a.size.scale b.pos a.pos then hitEffects b a else []

/- The full bullet-asteroid scan (src/game.rs 406-454). -/
def detectBulletAsteroidCollision (bullets : List BulletRec) (asteroids : List AsteroidRec) :
    List Effect :=
  bullets.flatMap fun b => processBullet b asteroids

/- detect_starship_asteroid_collision (src/game.rs 386-404): the starship is
   despawned when any asteroid passes the hit test. -/
def detectStarshipAsteroidCollision (shipScale : ℚ) (shipPos : Vec2)
    (asteroids : List AsteroidRec) : Bool :=
  asteroids.any fun a => decide (starshipAsteroidHit shipScale a.size.scale shipPos a.pos)

/- get_random_point (src/game.rs 221-226) with the two random samples
   r₁ r₂ ∈ [0, 1) made explicit. -/
def getRandomPoint (r₁ r₂ : ℚ) : Vec2 :=
  ⟨(r₁ * 2 - 1) * (VIEWPORT_WIDTH / 2), (r₂ * 2 - 1) * (VIEWPORT_HEIGHT / 2)⟩

/- Embedding of get_random_point().normalize() * ASTEROID_VELOCITY applied to
   the sampled point p (src/game.rs 258 and 437-440): the velocity w is the
   nonnegative multiple of p with squared length ASTEROID_VELOCITY ^ 2.  For
   p = 0 no such w exists, matching normalize of the zero vector not being a
   finite vector. -/
def asteroidVelSpec (p w : Vec2) : Prop :=
  ∃ c : ℚ, 0 ≤ c ∧ w = c • p ∧ lengthSq w = ASTEROID_VELOCITY ^ 2

/- Bullet spawn on a fire press edge (src/game.rs 341-357): position and
   range origin at the starship position, velocity the normalized starship
   direction times BULLET_VELOCITY.  dir is that normalized direction; at
   rotation angle 0 its exact value is (0, 1). -/
def fireBullet (shipPos dir : Vec2) : Vec2 × Vec2 :=
  (shipPos, BULLET_VELOCITY • dir)

/- remove_bullet range test (src/game.rs 368): distance of the current
   position from the spawn origin strictly exceeds BULLET_DISTANCE. -/
def rangeExceeded (start pos : Vec2) : Prop :=
  distGt start pos BULLET_DISTANCE

instance (s p : Vec2) : Decidable (rangeExceeded s p) :=
  inferInstanceAs (Decidable (distGt _ _ _))

/- State of a lone bullet that no asteroid ever hits: its position and
   whether it is still spawned. -/
structure BulletState where
  pos : Vec2
  alive : Bool
deriving DecidableEq

/- One tick for such a bullet: update_position with the bullet transform
   scale 5, then the remove_bullet pass despawns it when the range test
   fires. -/
def bulletTick (start vel : Vec2) (s : BulletState) : BulletState :=
  let p := updatePosition 5 vel s.pos
  ⟨p, if rangeExceeded start p then false else s.alive⟩

/- The run of a lone bullet from its spawn at start with velocity vel. -/
def bulletRun (start vel : Vec2) : ℕ → BulletState
  | 0 => ⟨start, true⟩
  | n + 1 => bulletTick start vel (bulletRun start vel n)

def bulletPos (start vel : Vec2) (n : ℕ) : Vec2 :=
  (bulletRun start vel n).pos

/- ------------------------------------------------------------------ -/
/- Theorems                                                            -/
/- ------------------------------------------------------------------ -/

@[ext]
theorem Vec2.ext {a b : Vec2} (hx : a.x = b.x) (hy : a.y = b.y) : a = b := by
  cases a
  cases b
  simp_all

@[simp]
theorem Vec2.add_x (a b : Vec2) : (a + b).x = a.x + b.x := rfl

@[simp]
theorem Vec2.add_y (a b : Vec2) : (a + b).y = a.y + b.y := rfl

@[simp]
theorem Vec2.sub_x (a b : Vec2) : (a - b).x = a.x - b.x := rfl

@[simp]
theorem Vec2.sub_y (a b : Vec2) : (a - b).y = a.y - b.y := rfl

@[simp]
theorem Vec2.smul_x (c : ℚ) (v : Vec2) : (c • v).x = c * v.x := rfl

@[simp]
theorem Vec2.smul_y (c : ℚ) (v : Vec2) : (c • v).y = c * v.y := rfl

theorem lengthSq_nonneg (v : Vec2) : 0 ≤ lengthSq v := by
  unfold lengthSq
  positivity

theorem lengthSq_smul (c : ℚ) (v : Vec2) : lengthSq (c • v) = c ^ 2 * lengthSq v := by
  simp only [lengthSq, Vec2.smul_x, Vec2.smul_y]
  ring

/-- Claim C10: when the rotate-left and rotate-right keys are both held in the
same tick, only rotate-left applies: the rotation angle increases by exactly
the angular increment, the same result as when only rotate-left is held, so
the rotate-right input is ignored rather than cancelling. -/
theorem rotation_left_precedence (speed angle : ℚ) :
    keyboardRotation true true speed angle = angle + speed ∧
    keyboardRotation true true speed angle = keyboardRotation true false speed angle := by
  simp [keyboardRotation]

/-- Claim C4: one update_position step first adds velocity to position; on each
axis, a coordinate beyond the axis maximum plus half the scale is set exactly
to the axis minimum minus half the scale, a coordinate below the axis minimum
minus half the scale is set exactly to the axis maximum plus half the scale,
and otherwise the coordinate is unchanged. -/
theorem updatePosition_wrap_cases (scale : ℚ) (hs : 0 ≤ scale) (vel pos : Vec2) :
    ((VIEWPORT_MAX_X + scale / 2 < pos.x + vel.x →
        (updatePosition scale vel pos).x = VIEWPORT_MIN_X - scale / 2) ∧
      (pos.x + vel.x < VIEWPORT_MIN_X - scale / 2 →
        (updatePosition scale vel pos).x = VIEWPORT_MAX_X + scale / 2) ∧
      (VIEWPORT_MIN_X - scale / 2 ≤ pos.x + vel.x → pos.x + vel.x ≤ VIEWPORT_MAX_X + scale / 2 →
        (updatePosition scale vel pos).x = pos.x + vel.x)) ∧
    ((VIEWPORT_MAX_Y + scale / 2 < pos.y + vel.y →
        (updatePosition scale vel pos).y = VIEWPORT_MIN_Y - scale / 2) ∧
      (pos.y + vel.y < VIEWPORT_MIN_Y - scale / 2 →
        (updatePosition scale vel pos).y = VIEWPORT_MAX_Y + scale / 2) ∧
      (VIEWPORT_MIN_Y - scale / 2 ≤ pos.y + vel.y → pos.y + vel.y ≤ VIEWPORT_MAX_Y + scale / 2 →
        (updatePosition scale vel pos).y = pos.y + vel.y)) := by
  have hx : VIEWPORT_MIN_X = -VIEWPORT_MAX_X := rfl
  have hy : VIEWPORT_MIN_Y = -VIEWPORT_MAX_Y := rfl
  have hmx : (0:ℚ) ≤ VIEWPORT_MAX_X := by norm_num [VIEWPORT_MAX_X, VIEWPORT_WIDTH]
  have hmy : (0:ℚ) ≤ VIEWPORT_MAX_Y := by norm_num [VIEWPORT_MAX_Y, VIEWPORT_HEIGHT]
  unfold updatePosition wrapCoord
  simp only [Vec2.add_x, Vec2.add_y]
  constructor
  · refine ⟨fun h1 => ?_, fun h1 => ?_, fun h1 h2 => ?_⟩ <;> split_ifs <;>
      first
      | rfl
      | (exfalso; rw [hx] at *; linarith)
  · refine ⟨fun h1 => ?_, fun h1 => ?_, fun h1 h2 => ?_⟩ <;> split_ifs <;>
      first
      | rfl
      | (exfalso; rw [hy] at *; linarith)

/-- Witness for C4: with scale 50 (so half scale 25), a starship stepping from
x = 0 with velocity x = 700 overshoots 640 + 25 and lands exactly at
-640 - 25. -/
theorem updatePosition_wrap_cases_witness :
    (0:ℚ) ≤ 50 ∧ (updatePosition 50 ⟨700, 0⟩ ⟨0, 0⟩).x = VIEWPORT_MIN_X - 50 / 2 := by
  refine ⟨by norm_num, ?_⟩
  exact (updatePosition_wrap_cases 50 (by norm_num) ⟨700, 0⟩ ⟨0, 0⟩).1.1
    (by norm_num [VIEWPORT_MAX_X, VIEWPORT_WIDTH])

/-- Counterexample to claim C1: in the scenario configuration (starship of
scale 50 at (0,0), one Big asteroid of scale 100 at (50,0), bullet just fired
at (0,0)) the two collision detectors both already report a hit, because the
separation 50 is below both thresholds 50 / 4 + 100 / 2 = 62.5 and
5 / 2 + 100 / 2 = 52.5, so the run does not have zero hits. -/
theorem scene_detectors_report_hits :
    starshipAsteroidHit 50 AsteroidSize.Big.scale ⟨0, 0⟩ ⟨50, 0⟩ ∧
    bulletAsteroidHit 5 AsteroidSize.Big.scale ⟨0, 0⟩ ⟨50, 0⟩ := by
  constructor <;>
    norm_num [starshipAsteroidHit, bulletAsteroidHit, AsteroidSize.scale, distLt, distSq,
      lengthSq]

/-- Claim C1 as amended: in that scenario, firing does spawn a bullet at (0,0)
moving in +y (velocity 6 times the exact rotation-zero direction (0,1)) and
the bullet x coordinate stays 0 on every tick of its trajectory, but the
collision detectors do not report zero hits: both the starship-asteroid scan
and the bullet-asteroid scan report a hit already at the initial
configuration, despawning the starship, the bullet and the asteroid. -/
theorem scene_bullet_x_zero_and_hits :
    fireBullet ⟨0, 0⟩ ⟨0, 1⟩ = (⟨0, 0⟩, ⟨0, 6⟩) ∧
    (∀ n : ℕ, (bulletPos ⟨0, 0⟩ ⟨0, 6⟩ n).x = 0) ∧
    detectStarshipAsteroidCollision 50 ⟨0, 0⟩ [⟨9, AsteroidSize.Big, ⟨50, 0⟩⟩] = true ∧
    Effect.despawnBullet 7 ∈ processBullet ⟨7, ⟨0, 0⟩⟩ [⟨9, AsteroidSize.Big, ⟨50, 0⟩⟩] ∧
    Effect.despawnAsteroid 9 ∈ processBullet ⟨7, ⟨0, 0⟩⟩ [⟨9, AsteroidSize.Big, ⟨50, 0⟩⟩] := by
  refine ⟨?_, ?_, ?_, ?_, ?_⟩
  · ext <;> norm_num [fireBullet, BULLET_VELOCITY]
  · intro n
    induction n with
    | zero => rfl
    | succ n ih =>
      show (bulletTick _ _ (bulletRun _ _ n)).pos.x = 0
      unfold bulletTick
      simp only [updatePosition, Vec2.add_x]
      rw [show (bulletRun ⟨0, 0⟩ ⟨0, 6⟩ n).pos = bulletPos ⟨0, 0⟩ ⟨0, 6⟩ n from rfl, ih]
      norm_num [wrapCoord, VIEWPORT_MIN_X, VIEWPORT_MAX_X, VIEWPORT_WIDTH]
  · norm_num [detectStarshipAsteroidCollision, starshipAsteroidHit, AsteroidSize.scale,
      distLt, distSq, lengthSq]
  · norm_num [processBullet, hitEffects, bulletAsteroidHit, AsteroidSize.scale, distLt,
      distSq, lengthSq, splitSize]
  · norm_num [processBullet, hitEffects, bulletAsteroidHit, AsteroidSize.scale, distLt,
      distSq, lengthSq, splitSize]

/-- Counterexample to claim C2: with a bullet at (0,0) and a Big asteroid
(scale 100) at (40,0), the source hit test fires (40 < 5 / 2 + 100 / 2), but
the claimed rule distance < bullet_radius / 2 + asteroid_radius / 2 with
radius = scale / 2 does not (40 is not below 5 / 4 + 100 / 4 = 26.25): the
claimed threshold is half the one of the source. -/
theorem bullet_hit_threshold_mismatch :
    bulletAsteroidHit 5 100 ⟨0, 0⟩ ⟨40, 0⟩ ∧
    ¬ claimBulletAsteroidHit 5 100 ⟨0, 0⟩ ⟨40, 0⟩ := by
  constructor <;>
    norm_num [bulletAsteroidHit, claimBulletAsteroidHit, distLt, distSq, lengthSq]

/-- Claim C2 as amended: a bullet-asteroid pair is reported as a hit exactly
when the distance between the positions is strictly below
bullet_scale / 2 + asteroid_scale / 2, the sum of the two radii where each
radius is half the rendered scale (bullet scale 5, asteroid scale per size
class); on a hit the scan issues a despawn for both the bullet and the
asteroid, and with no hit it issues nothing. -/
theorem bullet_asteroid_hit_rule (b : BulletRec) (a : AsteroidRec) :
    (bulletAsteroidHit 5 a.size.scale b.pos a.pos ↔
      distLt b.pos a.pos (5 / 2 + a.size.scale / 2)) ∧
    (bulletAsteroidHit 5 a.size.scale b.pos a.pos →
      Effect.despawnBullet b.id ∈ processBullet b [a] ∧
      Effect.despawnAsteroid a.id ∈ processBullet b [a]) ∧
    (¬ bulletAsteroidHit 5 a.size.scale b.pos a.pos → processBullet b [a] = []) := by
  refine ⟨Iff.rfl, fun h => ?_, fun h => ?_⟩
  · constructor <;> simp [processBullet, hitEffects, h]
  · simp [processBullet, h]

/-- Witness for C2 as amended: the despawn commands for a concrete overlapping
pair. -/
theorem bullet_asteroid_hit_rule_witness :
    Effect.despawnBullet 3 ∈ processBullet ⟨3, ⟨0, 0⟩⟩ [⟨4, AsteroidSize.Big, ⟨40, 0⟩⟩] ∧
    Effect.despawnAsteroid 4 ∈ processBullet ⟨3, ⟨0, 0⟩⟩ [⟨4, AsteroidSize.Big, ⟨40, 0⟩⟩] :=
  (bullet_asteroid_hit_rule ⟨3, ⟨0, 0⟩⟩ ⟨4, AsteroidSize.Big, ⟨40, 0⟩⟩).2.1
    (by norm_num [bulletAsteroidHit, AsteroidSize.scale, distLt, distSq, lengthSq])

/-- Counterexample to claim C3: a bullet at (0,0) overlapping the Big
asteroids 1 at (0,0) and 2 at (10,0) is processed against both in the same
tick: the scan issues its despawn twice and splits both asteroids, so it is
not excluded from further checks after the first match. -/
theorem bullet_double_processing :
    processBullet ⟨0, ⟨0, 0⟩⟩
        [⟨1, AsteroidSize.Big, ⟨0, 0⟩⟩, ⟨2, AsteroidSize.Big, ⟨10, 0⟩⟩] =
      [Effect.despawnBullet 0, Effect.despawnAsteroid 1,
        Effect.spawnAsteroid AsteroidSize.Medium ⟨0, 0⟩,
        Effect.spawnAsteroid AsteroidSize.Medium ⟨0, 0⟩,
        Effect.despawnBullet 0, Effect.despawnAsteroid 2,
        Effect.spawnAsteroid AsteroidSize.Medium ⟨10, 0⟩,
        Effect.spawnAsteroid AsteroidSize.Medium ⟨10, 0⟩] := by
  norm_num [processBullet, hitEffects, bulletAsteroidHit, AsteroidSize.scale, distLt,
    distSq, lengthSq, splitSize]

/-- Claim C3 as amended: within a single tick, a bullet is processed against
every asteroid it overlaps, in iteration order: one bullet despawn command is
issued per matching asteroid (so a bullet overlapping k asteroids is despawned
k times and triggers k splits), with no exclusion after the first match. -/
theorem bullet_processed_per_overlap (b : BulletRec) (asteroids : List AsteroidRec) :
    (processBullet b asteroids).count (Effect.despawnBullet b.id) =
      asteroids.countP fun a => decide (bulletAsteroidHit 5 a.size.scale b.pos a.pos) := by
  induction asteroids with
  | nil => rfl
  | cons a t ih =>
    rw [processBullet, List.flatMap_cons, List.count_append, List.countP_cons]
    rw [show (t.flatMap fun a =>
        if bulletAsteroidHit 5 a.size.scale b.pos a.pos then hitEffects b a else []) =
        processBullet b t from rfl, ih]
    by_cases h : bulletAsteroidHit 5 a.size.scale b.pos a.pos
    · have hc : (hitEffects b a).count (Effect.despawnBullet b.id) = 1 := by
        cases hsplit : splitSize a.size <;>
          simp [hitEffects, hsplit, List.count_cons, List.count_append]
      simp [h, hc, Nat.add_comm]
    · simp [h]

/-- Claim C5: from any starting velocity of squared magnitude at most
STARSHIP_MAX_VELOCITY squared, any interleaving of thrust ticks (adding a unit
direction times STARSHIP_ACCELERATION then rescaling when the cap is exceeded)
and deceleration ticks keeps the squared magnitude at or below the squared
cap, in exact arithmetic. -/
theorem starship_speed_cap (v₀ v : Vec2)
    (h0 : lengthSq v₀ ≤ STARSHIP_MAX_VELOCITY ^ 2)
    (hr : ShipReaches v₀ v) : lengthSq v ≤ STARSHIP_MAX_VELOCITY ^ 2 := by
  induction hr with
  | refl => exact h0
  | thrust u w d hre hs ih =>
    obtain ⟨hd, hc⟩ := hs
    unfold thrustClamp at hc
    split_ifs at hc with hgt
    · obtain ⟨c, hc0, hw, hlen⟩ := hc
      exact le_of_eq hlen
    · rw [hc]
      exact le_of_not_lt hgt
  | decel u hre ih =>
    unfold decelerateStarship
    rw [lengthSq_smul]
    have hnn := lengthSq_nonneg u
    have hd : ((1:ℚ) - STARSHIP_DECELERATION) ^ 2 = 9801 / 10000 := by
      norm_num [STARSHIP_DECELERATION]
    rw [hd]
    linarith

/-- Witness for C5: a starship already at the velocity cap that thrusts
straight ahead once is rescaled back onto the cap. -/
theorem starship_speed_cap_witness :
    lengthSq ⟨0, 10⟩ ≤ STARSHIP_MAX_VELOCITY ^ 2 := by
  have hadd : (⟨0, 10⟩ : Vec2) + STARSHIP_ACCELERATION • (⟨0, 1⟩ : Vec2) = ⟨0, 51 / 5⟩ := by
    ext <;> norm_num [STARSHIP_ACCELERATION]
  have hstep : thrustStep ⟨0, 1⟩ ⟨0, 10⟩ ⟨0, 10⟩ := by
    refine ⟨by norm_num [lengthSq], ?_⟩
    rw [hadd]
    unfold thrustClamp
    rw [if_pos (by norm_num [lengthSq, STARSHIP_MAX_VELOCITY])]
    exact ⟨50 / 51, by norm_num, by ext <;> norm_num,
      by norm_num [lengthSq, STARSHIP_MAX_VELOCITY]⟩
  exact starship_speed_cap ⟨0, 10⟩ ⟨0, 10⟩
    (by norm_num [lengthSq, STARSHIP_MAX_VELOCITY])
    (ShipReaches.thrust _ _ _ _ (ShipReaches.refl _) hstep)

/-- Claim C6: the size-class split maps Big to some Medium, Medium to some
Small and Small to none; a confirmed hit whose split yields some next size
spawns exactly two asteroids of that size at the destroyed asteroid position,
each receiving a velocity that is a randomized direction scaled to
ASTEROID_VELOCITY (squared length ASTEROID_VELOCITY squared); a hit whose
split yields none spawns nothing. -/
theorem asteroid_split_rule :
    splitSize AsteroidSize.Big = some AsteroidSize.Medium ∧
    splitSize AsteroidSize.Medium = some AsteroidSize.Small ∧
    splitSize AsteroidSize.Small = none ∧
    (∀ (b : BulletRec) (a : AsteroidRec) (s : AsteroidSize), splitSize a.size = some s →
      hitEffects b a =
        [Effect.despawnBullet b.id, Effect.despawnAsteroid a.id,
          Effect.spawnAsteroid s a.pos, Effect.spawnAsteroid s a.pos]) ∧
    (∀ (b : BulletRec) (a : AsteroidRec), splitSize a.size = none →
      hitEffects b a = [Effect.despawnBullet b.id, Effect.despawnAsteroid a.id]) ∧
    (∀ p w : Vec2, asteroidVelSpec p w → lengthSq w = ASTEROID_VELOCITY ^ 2) := by
  refine ⟨rfl, rfl, rfl, ?_, ?_, ?_⟩
  · intro b a s hs
    simp [hitEffects, hs]
  · intro b a hs
    simp [hitEffects, hs]
  · rintro p w ⟨c, hc0, hw, hl⟩
    exact hl

/-- Witness for C6: a hit on a Big asteroid spawns exactly the two Medium
children at its position. -/
theorem asteroid_split_rule_witness :
    hitEffects ⟨5, ⟨1, 2⟩⟩ ⟨6, AsteroidSize.Big, ⟨3, 4⟩⟩ =
      [Effect.despawnBullet 5, Effect.despawnAsteroid 6,
        Effect.spawnAsteroid AsteroidSize.Medium ⟨3, 4⟩,
        Effect.spawnAsteroid AsteroidSize.Medium ⟨3, 4⟩] :=
  asteroid_split_rule.2.2.2.1 ⟨5, ⟨1, 2⟩⟩ ⟨6, AsteroidSize.Big, ⟨3, 4⟩⟩
    AsteroidSize.Medium rfl

/-- Claim C9: the zero vector is reachable by get_random_point (at samples
one half, one half); whenever the spawn velocity relation (normalize then
scale by ASTEROID_VELOCITY) holds, the sampled point is nonzero and the
velocity has squared length ASTEROID_VELOCITY squared; and for the zero
sample no finite velocity satisfies the relation at all, while no guard in
the spawn paths excludes that sample. -/
theorem asteroid_velocity_nan_hazard :
    getRandomPoint (1 / 2) (1 / 2) = ⟨0, 0⟩ ∧
    (∀ p w : Vec2, asteroidVelSpec p w → p ≠ ⟨0, 0⟩ ∧ lengthSq w = ASTEROID_VELOCITY ^ 2) ∧
    (¬ ∃ w : Vec2, asteroidVelSpec ⟨0, 0⟩ w) := by
  have hz : ∀ w : Vec2, ¬ asteroidVelSpec ⟨0, 0⟩ w := by
    rintro w ⟨c, hc0, hw, hl⟩
    have hw0 : w = ⟨0, 0⟩ := by
      rw [hw]
      ext <;> simp
    rw [hw0] at hl
    norm_num [lengthSq, ASTEROID_VELOCITY] at hl
  refine ⟨by ext <;> norm_num [getRandomPoint, VIEWPORT_WIDTH, VIEWPORT_HEIGHT], ?_, ?_⟩
  · intro p w hs
    refine ⟨?_, ?_⟩
    · rintro rfl
      exact hz w hs
    · obtain ⟨c, hc0, hw, hl⟩ := hs
      exact hl
  · rintro ⟨w, hw⟩
    exact hz w hw

/-- Witness for C9: the point (3,4) with velocity (6/5, 8/5) satisfies the
spawn velocity relation, and the theorem then gives its speed property. -/
theorem asteroid_velocity_nan_hazard_witness :
    asteroidVelSpec ⟨3, 4⟩ ⟨6 / 5, 8 / 5⟩ ∧
    ((⟨3, 4⟩ : Vec2) ≠ ⟨0, 0⟩ ∧ lengthSq ⟨6 / 5, 8 / 5⟩ = ASTEROID_VELOCITY ^ 2) := by
  have hs : asteroidVelSpec ⟨3, 4⟩ ⟨6 / 5, 8 / 5⟩ :=
    ⟨2 / 5, by norm_num, by ext <;> norm_num, by norm_num [lengthSq, ASTEROID_VELOCITY]⟩
  exact ⟨hs, asteroid_velocity_nan_hazard.2.1 ⟨3, 4⟩ ⟨6 / 5, 8 / 5⟩ hs⟩

theorem not_rangeExceeded_self (p : Vec2) : ¬ rangeExceeded p p := by
  unfold rangeExceeded distGt distSq
  have hpp : p - p = (⟨0, 0⟩ : Vec2) := by
    ext <;> simp
  rw [hpp]
  norm_num [lengthSq, BULLET_DISTANCE, VIEWPORT_HEIGHT]

theorem bulletRun_succ_alive (start vel : Vec2) (n : ℕ) :
    (bulletRun start vel (n + 1)).alive =
      if rangeExceeded start (bulletPos start vel (n + 1)) then false
      else (bulletRun start vel n).alive := rfl

theorem bulletRun_alive_iff (start vel : Vec2) (n : ℕ) :
    (bulletRun start vel n).alive = true ↔
      ∀ k, k ≤ n → ¬ rangeExceeded start (bulletPos start vel k) := by
  induction n with
  | zero =>
    constructor
    · intro _ k hk
      have hk0 : k = 0 := Nat.le_zero.mp hk
      subst hk0
      exact not_rangeExceeded_self start
    · intro _
      rfl
  | succ n ih =>
    rw [bulletRun_succ_alive]
    constructor
    · intro h k hk
      by_cases hex : rangeExceeded start (bulletPos start vel (n + 1))
      · rw [if_pos hex] at h
        exact absurd h Bool.false_ne_true
      · rw [if_neg hex] at h
        rcases Nat.eq_or_lt_of_le hk with rfl | hlt
        · exact hex
        · exact (ih.mp h) k (Nat.lt_succ_iff.mp hlt)
    · intro h
      rw [if_neg (h (n + 1) le_rfl)]
      exact ih.mpr fun k hk => h k (Nat.le_succ_of_le hk)

/-- Claim C7: a bullet that no asteroid ever hits stays spawned on every tick
strictly before the first tick at which its distance from the spawn origin
strictly exceeds BULLET_DISTANCE, and the remove_bullet pass despawns it on
exactly that first tick. -/
theorem remove_bullet_first_range_tick (start vel : Vec2) (n : ℕ)
    (hn : rangeExceeded start (bulletPos start vel n))
    (hbefore : ∀ k, k < n → ¬ rangeExceeded start (bulletPos start vel k)) :
    (∀ k, k < n → (bulletRun start vel k).alive = true) ∧
    (bulletRun start vel n).alive = false := by
  constructor
  · intro k hk
    exact (bulletRun_alive_iff start vel k).mpr fun j hj =>
      hbefore j (lt_of_le_of_lt hj hk)
  · cases halive : (bulletRun start vel n).alive with
    | false => rfl
    | true =>
      exact absurd hn (((bulletRun_alive_iff start vel n).mp halive) n le_rfl)

/-- Witness for C7: a bullet from the center whose first step already carries
it beyond BULLET_DISTANCE is despawned at tick one. -/
theorem remove_bullet_first_range_tick_witness :
    rangeExceeded ⟨0, 0⟩ (bulletPos ⟨0, 0⟩ ⟨600, 0⟩ 1) ∧
    (bulletRun ⟨0, 0⟩ ⟨600, 0⟩ 1).alive = false := by
  have h1 : rangeExceeded ⟨0, 0⟩ (bulletPos ⟨0, 0⟩ ⟨600, 0⟩ 1) := by
    norm_num [bulletPos, bulletRun, bulletTick, updatePosition, wrapCoord, rangeExceeded,
      distGt, distSq, lengthSq, BULLET_DISTANCE, VIEWPORT_HEIGHT, VIEWPORT_MAX_X,
      VIEWPORT_MIN_X, VIEWPORT_MAX_Y, VIEWPORT_MIN_Y, VIEWPORT_WIDTH]
  refine ⟨h1, (remove_bullet_first_range_tick ⟨0, 0⟩ ⟨600, 0⟩ 1 h1 ?_).2⟩
  intro k hk
  have hk0 : k = 0 := by omega
  subst hk0
  exact not_rangeExceeded_self ⟨0, 0⟩

set_option maxRecDepth 8000 in
/-- Counterexample to claim C8: the bullet spawned at (0, 200) with velocity
(0, 6) wraps at the top edge on tick 28 and survives (its distance 562.5 from
the origin stays within BULLET_DISTANCE = 576), and on tick 29, still alive,
its distance to the spawn origin decreases from 562.5 to 556.5: the distance
is not monotonically non-decreasing until despawn. -/
theorem bullet_distance_decreases_after_wrap :
    (bulletRun ⟨0, 200⟩ ⟨0, 6⟩ 29).alive = true ∧
    distSq ⟨0, 200⟩ (bulletPos ⟨0, 200⟩ ⟨0, 6⟩ 29) <
      distSq ⟨0, 200⟩ (bulletPos ⟨0, 200⟩ ⟨0, 6⟩ 28) := by
  constructor <;>
    norm_num [bulletPos, bulletRun, bulletTick, updatePosition, wrapCoord,
      rangeExceeded, distGt, distSq, lengthSq, BULLET_DISTANCE, VIEWPORT_HEIGHT,
      VIEWPORT_MAX_X, VIEWPORT_MIN_X, VIEWPORT_MAX_Y, VIEWPORT_MIN_Y, VIEWPORT_WIDTH]

/-- Claim C8 as amended: from spawn until the first wraparound tick, the
distance from the current position of a bullet to its spawn origin is
monotonically non-decreasing: if every step up to tick n has been a pure
translation by the velocity (no wraparound has yet relocated the bullet),
the distances at ticks j and k with j at most k at most n are ordered.
After a wraparound relocation, monotonicity can fail even on later
translation-only steps, as the counterexample run shows at ticks 28 to 29. -/
theorem bullet_distance_mono_no_wrap (start vel : Vec2) (n : ℕ)
    (hnw : ∀ k, k < n → bulletPos start vel (k + 1) = bulletPos start vel k + vel) :
    ∀ j k, j ≤ k → k ≤ n →
      distSq start (bulletPos start vel j) ≤ distSq start (bulletPos start vel k) := by
  have hlin : ∀ k, k ≤ n → bulletPos start vel k = start + (k : ℚ) • vel := by
    intro k hk
    induction k with
    | zero =>
      show bulletPos start vel 0 = start + (0 : ℚ) • vel
      ext <;> simp [bulletPos, bulletRun]
    | succ k ihk =>
      rw [hnw k hk, ihk (Nat.le_of_succ_le hk)]
      push_cast
      ext <;> (simp; ring)
  have hdist : ∀ k, k ≤ n →
      distSq start (bulletPos start vel k) = (k : ℚ) ^ 2 * lengthSq vel := by
    intro k hk
    rw [hlin k hk]
    unfold distSq lengthSq
    simp only [Vec2.sub_x, Vec2.sub_y, Vec2.add_x, Vec2.add_y, Vec2.smul_x, Vec2.smul_y]
    ring
  intro j k hjk hkn
  rw [hdist j (le_trans hjk hkn), hdist k hkn]
  have hcast : (j : ℚ) ≤ (k : ℚ) := by exact_mod_cast hjk
  have hj0 : (0 : ℚ) ≤ (j : ℚ) := by positivity
  exact mul_le_mul_of_nonneg_right (pow_le_pow_left₀ hj0 hcast 2) (lengthSq_nonneg vel)

/-- Witness for C8 as amended: two wrap-free ticks from the center, with the
distance growing from tick 1 to tick 2. -/
theorem bullet_distance_mono_no_wrap_witness :
    (∀ k, k < 2 → bulletPos ⟨0, 0⟩ ⟨0, 6⟩ (k + 1) = bulletPos ⟨0, 0⟩ ⟨0, 6⟩ k + ⟨0, 6⟩) ∧
    distSq ⟨0, 0⟩ (bulletPos ⟨0, 0⟩ ⟨0, 6⟩ 1) ≤ distSq ⟨0, 0⟩ (bulletPos ⟨0, 0⟩ ⟨0, 6⟩ 2) := by
  have hnw : ∀ k, k < 2 →
      bulletPos ⟨0, 0⟩ ⟨0, 6⟩ (k + 1) = bulletPos ⟨0, 0⟩ ⟨0, 6⟩ k + ⟨0, 6⟩ := by
    intro k hk
    interval_cases k <;>
      (ext <;> norm_num [bulletPos, bulletRun, bulletTick, updatePosition, wrapCoord,
        rangeExceeded, distGt, distSq, lengthSq, BULLET_DISTANCE, VIEWPORT_HEIGHT,
        VIEWPORT_MAX_X, VIEWPORT_MIN_X, VIEWPORT_MAX_Y, VIEWPORT_MIN_Y, VIEWPORT_WIDTH])
  exact ⟨hnw, bullet_distance_mono_no_wrap ⟨0, 0⟩ ⟨0, 6⟩ 2 hnw 1 2
    (by norm_num) (by norm_num)⟩

end Asteroids
